import Mathlib

/-
Shallow embedding of the "lamfox" serverless router (TypeScript).

Source files embedded here:
  * `src/unnamed/part_000` — the `Router` class (`addRoute`, `handleRequest`,
    `processGuards`, `invokeHandler`, `convertToRegExp`, `extractParams`)
    together with the decorator-declared route data, and
  * `src/src/error_handler.ts` — the error classes and `errorHandler`.

Modelling conventions:
  * JS strings are Lean `String`s; JS objects used as string→string records
    (headers, query parameters, path parameters) are association lists with
    first-match lookup.
  * The asynchronous pipeline is linear (every stage is awaited), so the
    dispatch is modelled as a state-passing function over the event plus an
    `Except` monad for raised exceptions.  User-supplied middleware and
    guards receive the event and return the (possibly mutated) event; a
    stage that throws is modelled as returning only the error (mutations
    performed by a user stage before its own throw are not tracked).
  * `JSON.parse` / `JSON.stringify` are platform builtins; they are modelled
    by a small JSON value type with an executable parser and serializer
    covering the JSON fragment relevant here (integers only for numbers).
  * The compiled `RegExp` produced by `convertToRegExp` is modelled by its
    source string together with its parsed shape: an alternating sequence of
    literal characters and `([^/]+)` capture groups, matched greedily with
    backtracking exactly as the JS regex engine matches this pattern class.
    (Path templates containing further regex metacharacters are outside the
    modelled fragment.)
-/

/-- JS string-keyed record of strings (headers / query / path parameters). -/
abbrev StrMap := List (String × String)

/-- Property access on a string-keyed record: first matching key. -/
def lookupStr (m : StrMap) (k : String) : Option String :=
  match m with
  | [] => none
  | (k', v) :: rest => if k' = k then some v else lookupStr rest k

/-- Model of `String.prototype.toLowerCase` (ASCII fragment). -/
def lowerString (s : String) : String :=
  String.mk (s.data.map Char.toLower)

/-- JSON values (numbers restricted to integers; the claims exercise no
fractional numbers). -/
inductive Json where
  | null
  | boolean (b : Bool)
  | num (n : Int)
  | str (s : String)
  | arr (elems : List Json)
  | obj (fields : List (String × Json))

/-- Left brace character (written via its code point). -/
def lbraceC : Char := Char.ofNat 123

/-- Right brace character (written via its code point). -/
def rbraceC : Char := Char.ofNat 125

/-- Hexadecimal digit character (lower case), as used by `JSON.stringify`
for control-character escapes. -/
def hexDigitC (n : Nat) : Char :=
  if n < 10 then Char.ofNat (48 + n) else Char.ofNat (97 + (n - 10))

/-- Escape one character the way `JSON.stringify` escapes string contents. -/
def jsonEscapeChar (c : Char) : String :=
  if c = '"' then "\\\""
  else if c = '\\' then "\\\\"
  else if c = '\n' then "\\n"
  else if c = '\r' then "\\r"
  else if c = '\t' then "\\t"
  else if c = Char.ofNat 8 then "\\b"
  else if c = Char.ofNat 12 then "\\f"
  else if c.val < 32 then
    "\\u00" ++ String.singleton (hexDigitC (c.toNat / 16))
            ++ String.singleton (hexDigitC (c.toNat % 16))
  else String.singleton c

/-- Serialize a string as a JSON string literal. -/
def jsonQuote (s : String) : String :=
  "\"" ++ String.join (s.data.map jsonEscapeChar) ++ "\""

mutual

/-- Model of `JSON.stringify` on the modelled JSON fragment. -/
def jsonStringify : Json → String
  | .null => "null"
  | .boolean b => if b then "true" else "false"
  | .num n => toString n
  | .str s => jsonQuote s
  | .arr es => "[" ++ stringifyElems es ++ "]"
  | .obj fs => "\x7b" ++ stringifyFields fs ++ "\x7d"

/-- Comma-separated serialization of array elements. -/
def stringifyElems : List Json → String
  | [] => ""
  | [e] => jsonStringify e
  | e :: es => jsonStringify e ++ "," ++ stringifyElems es

/-- Comma-separated serialization of object fields (insertion order). -/
def stringifyFields : List (String × Json) → String
  | [] => ""
  | [(k, v)] => jsonQuote k ++ ":" ++ jsonStringify v
  | (k, v) :: fs => jsonQuote k ++ ":" ++ jsonStringify v ++ "," ++ stringifyFields fs

end

/-- JSON whitespace. -/
def isJsonWs (c : Char) : Bool :=
  c = ' ' || c = '\t' || c = '\n' || c = '\r'

/-- Skip JSON whitespace. -/
def skipWs (cs : List Char) : List Char :=
  cs.dropWhile isJsonWs

/-- Strip an expected literal character sequence; `none` on mismatch. -/
def stripLit : List Char → List Char → Option (List Char)
  | [], cs => some cs
  | _ :: _, [] => none
  | e :: es, c :: cs => if c = e then stripLit es cs else none

/-- Parse the four hex digits of a `\uXXXX` escape. -/
def parseHex4 (cs : List Char) : Option (Nat × List Char) :=
  match cs with
  | a :: b :: c :: d :: rest =>
    let hv (x : Char) : Option Nat :=
      if x.isDigit then some (x.toNat - 48)
      else if 'a' ≤ x ∧ x ≤ 'f' then some (x.toNat - 87)
      else if 'A' ≤ x ∧ x ≤ 'F' then some (x.toNat - 55)
      else none
    match hv a, hv b, hv c, hv d with
    | some wa, some wb, some wc, some wd =>
      some (((wa * 16 + wb) * 16 + wc) * 16 + wd, rest)
    | _, _, _, _ => none
  | _ => none

/-- Parse the body of a JSON string literal (opening quote already
consumed), handling the JSON escape sequences.  `fuel` bounds recursion. -/
def parseStringBody : Nat → List Char → Except String (String × List Char)
  | 0, _ => .error "Unexpected end of JSON input"
  | _ + 1, [] => .error "Unterminated string in JSON"
  | fuel + 1, c :: rest =>
    if c = '"' then .ok ("", rest)
    else if c = '\\' then
      match rest with
      | [] => .error "Unterminated string in JSON"
      | e :: rest2 =>
        let simpleEsc : Option Char :=
          if e = '"' then some '"'
          else if e = '\\' then some '\\'
          else if e = '/' then some '/'
          else if e = 'n' then some '\n'
          else if e = 't' then some '\t'
          else if e = 'r' then some '\r'
          else if e = 'b' then some (Char.ofNat 8)
          else if e = 'f' then some (Char.ofNat 12)
          else none
        match simpleEsc with
        | some ch =>
          match parseStringBody fuel rest2 with
          | .ok (s, r) => .ok (String.singleton ch ++ s, r)
          | .error m => .error m
        | none =>
          if e = 'u' then
            match parseHex4 rest2 with
            | some (n, rest3) =>
              let ch := if n < 0xd800 ∨ 0xe000 ≤ n then Char.ofNat n else '?'
              match parseStringBody fuel rest3 with
              | .ok (s, r) => .ok (String.singleton ch ++ s, r)
              | .error m => .error m
            | none => .error "Bad Unicode escape in JSON"
          else .error "Bad escaped character in JSON"
    else if c.val < 32 then .error "Bad control character in JSON string"
    else
      match parseStringBody fuel rest with
      | .ok (s, r) => .ok (String.singleton c ++ s, r)
      | .error m => .error m

/-- Parse a JSON number (integer fragment; fractional and exponent forms
are outside the modelled fragment). -/
def parseNumber (cs : List Char) : Except String (Json × List Char) :=
  let (neg, cs1) :=
    match cs with
    | '-' :: rest => (true, rest)
    | _ => (false, cs)
  let ds := cs1.takeWhile Char.isDigit
  let rest := cs1.dropWhile Char.isDigit
  if ds.isEmpty then .error "Unexpected token in JSON"
  else if ds.length > 1 ∧ ds.headD '0' = '0' then .error "Unexpected number in JSON"
  else
    match rest with
    | '.' :: _ => .error "Number form outside modelled JSON fragment"
    | 'e' :: _ => .error "Number form outside modelled JSON fragment"
    | 'E' :: _ => .error "Number form outside modelled JSON fragment"
    | _ =>
      let n : Nat := ds.foldl (fun acc d => acc * 10 + (d.toNat - 48)) 0
      .ok (.num (if neg then -(n : Int) else (n : Int)), rest)

mutual

/-- Parse one JSON value (recursive descent; `fuel` bounds nesting). -/
def parseJ : Nat → List Char → Except String (Json × List Char)
  | 0, _ => .error "JSON nesting too deep"
  | fuel + 1, cs =>
    match skipWs cs with
    | [] => .error "Unexpected end of JSON input"
    | c :: rest =>
      if c = 'n' then
        match stripLit ['u', 'l', 'l'] rest with
        | some r => .ok (.null, r)
        | none => .error "Unexpected token in JSON"
      else if c = 't' then
        match stripLit ['r', 'u', 'e'] rest with
        | some r => .ok (.boolean true, r)
        | none => .error "Unexpected token in JSON"
      else if c = 'f' then
        match stripLit ['a', 'l', 's', 'e'] rest with
        | some r => .ok (.boolean false, r)
        | none => .error "Unexpected token in JSON"
      else if c = '"' then
        match parseStringBody (rest.length + 1) rest with
        | .ok (s, r) => .ok (.str s, r)
        | .error m => .error m
      else if c = '-' ∨ c.isDigit then parseNumber (c :: rest)
      else if c = '[' then
        match parseArrFirst fuel rest with
        | .ok (es, r) => .ok (.arr es, r)
        | .error m => .error m
      else if c = lbraceC then
        match parseObjFirst fuel rest with
        | .ok (fs, r) => .ok (.obj fs, r)
        | .error m => .error m
      else .error "Unexpected token in JSON"

/-- Parse array contents right after `[`: either `]` or a first element. -/
def parseArrFirst : Nat → List Char → Except String (List Json × List Char)
  | 0, _ => .error "JSON nesting too deep"
  | fuel + 1, cs =>
    match skipWs cs with
    | ']' :: r => .ok ([], r)
    | cs' =>
      match parseJ fuel cs' with
      | .error m => .error m
      | .ok (v, r2) =>
        match parseArrMore fuel r2 with
        | .ok (vs, r3) => .ok (v :: vs, r3)
        | .error m => .error m

/-- Parse array contents after an element: `,` plus element, or `]`. -/
def parseArrMore : Nat → List Char → Except String (List Json × List Char)
  | 0, _ => .error "JSON nesting too deep"
  | fuel + 1, cs =>
    match skipWs cs with
    | ']' :: r => .ok ([], r)
    | ',' :: r =>
      match parseJ fuel r with
      | .error m => .error m
      | .ok (v, r2) =>
        match parseArrMore fuel r2 with
        | .ok (vs, r3) => .ok (v :: vs, r3)
        | .error m => .error m
    | _ => .error "Unexpected token in JSON"

/-- Parse object contents right after the opening brace. -/
def parseObjFirst : Nat → List Char → Except String (List (String × Json) × List Char)
  | 0, _ => .error "JSON nesting too deep"
  | fuel + 1, cs =>
    match skipWs cs with
    | c :: r =>
      if c = rbraceC then .ok ([], r)
      else if c = '"' then
        match parseMember fuel r with
        | .error m => .error m
        | .ok (kv, r2) =>
          match parseObjMore fuel r2 with
          | .ok (kvs, r3) => .ok (kv :: kvs, r3)
          | .error m => .error m
      else .error "Unexpected token in JSON"
    | [] => .error "Unexpected end of JSON input"

/-- Parse object contents after a member: `,` plus member, or closing brace. -/
def parseObjMore : Nat → List Char → Except String (List (String × Json) × List Char)
  | 0, _ => .error "JSON nesting too deep"
  | fuel + 1, cs =>
    match skipWs cs with
    | c :: r =>
      if c = rbraceC then .ok ([], r)
      else if c = ',' then
        match skipWs r with
        | '"' :: r2 =>
          match parseMember fuel r2 with
          | .error m => .error m
          | .ok (kv, r3) =>
            match parseObjMore fuel r3 with
            | .ok (kvs, r4) => .ok (kv :: kvs, r4)
            | .error m => .error m
        | _ => .error "Unexpected token in JSON"
      else .error "Unexpected token in JSON"
    | [] => .error "Unexpected end of JSON input"

/-- Parse one `"key" : value` member (opening quote of the key consumed). -/
def parseMember : Nat → List Char → Except String ((String × Json) × List Char)
  | 0, _ => .error "JSON nesting too deep"
  | fuel + 1, cs =>
    match parseStringBody (cs.length + 1) cs with
    | .error m => .error m
    | .ok (k, r) =>
      match skipWs r with
      | ':' :: r2 =>
        match parseJ fuel r2 with
        | .error m => .error m
        | .ok (v, r3) => .ok ((k, v), r3)
      | _ => .error "Unexpected token in JSON"

end

/-- Model of `JSON.parse` (source line 186; platform builtin): parse one
value and require only trailing whitespace.  A failure models the thrown
`SyntaxError`. -/
def jsonParseStr (s : String) : Except String Json :=
  match parseJ (s.length + 1) s.data with
  | .error m => .error m
  | .ok (j, rest) =>
    if (skipWs rest).isEmpty then .ok j
    else .error "Unexpected non-whitespace character after JSON"

/-- Character class `[a-zA-Z0-9]` of the placeholder regexes in
`convertToRegExp` (line 221) and `extractParams` (line 228). -/
def isAlnumAZ09 (c : Char) : Bool :=
  ('a' ≤ c && c ≤ 'z') || ('A' ≤ c && c ≤ 'Z') || ('0' ≤ c && c ≤ '9')

/-- Token of a path template under the scan performed by the global regex
`/:([a-zA-Z0-9]+)/g`: either a plain character or a `:name` occurrence
with a maximal alphanumeric `name`. -/
inductive PathTok where
  | lit (c : Char)
  | colonRun (name : List Char)
deriving DecidableEq

/-- Fuel-bounded left-to-right scan of a string by the global regex
`/:([a-zA-Z0-9]+)/g` (shared by the `replace` in `convertToRegExp` and the
`match` in `extractParams`): at a `:` followed by at least one
alphanumeric character the maximal alphanumeric run is one match;
everything else is literal.  Every step consumes at least one character,
so fuel equal to the input length is always enough. -/
def lexPathF : Nat → List Char → List PathTok
  | 0, _ => []
  | _ + 1, [] => []
  | fuel + 1, c :: rest =>
    if c = ':' then
      let name := rest.takeWhile isAlnumAZ09
      if name.isEmpty then .lit ':' :: lexPathF fuel rest
      else .colonRun name :: lexPathF fuel (rest.drop name.length)
    else .lit c :: lexPathF fuel rest

/-- Scan of a whole string by `/:([a-zA-Z0-9]+)/g`. -/
def lexPath (cs : List Char) : List PathTok :=
  lexPathF cs.length cs

/-- Segment of the compiled pattern: a literal character, or one
`([^/]+)` capture group (the replacement of a placeholder). -/
inductive PatSeg where
  | lit (c : Char)
  | group
deriving DecidableEq

/-- Compiled route pattern: the parsed shape used for matching, plus the
regex source string `^...$` used by `RegExp.prototype.toString`. -/
structure CompiledPattern where
  segs : List PatSeg
  source : String
deriving DecidableEq

/-- String spelling of one token after the replacement
`path.replace(/:([a-zA-Z0-9]+)/g, '([^/]+)')` (line 221). -/
def tokReplaced : PathTok → List Char
  | .lit c => [c]
  | .colonRun _ => "([^/]+)".data

/-- Pattern segments of one token. -/
def tokSegs : PathTok → List PatSeg
  | .lit c => [.lit c]
  | .colonRun _ => [.group]

/-- Model of `Router.convertToRegExp` (lines 220-223): replace every
`:name` with `([^/]+)` and compile `^pattern$`.  The `^...$` anchors are
reflected in the matcher requiring the entire string to be consumed. -/
def convertToRegExp (path : String) : CompiledPattern :=
  let toks := lexPath path.data
  { segs := toks.flatMap tokSegs
  , source := "^" ++ String.mk (toks.flatMap tokReplaced) ++ "$" }

/-- Length of the maximal prefix of non-separator characters: the most a
`[^/]+` group can consume at this position. -/
def maxRunNonSlash (s : List Char) : Nat :=
  (s.takeWhile (fun c => c ≠ '/')).length

/-- Greedy matching of one `([^/]+)` group: try the longest candidate
capture first and backtrack downwards, exactly as the JS regex engine
treats a greedy `+` over `[^/]`.  `f` matches the remaining pattern. -/
def tryGreedy (f : List Char → Option (List (List Char))) (s : List Char) :
    Nat → Option (List (List Char))
  | 0 => none
  | k + 1 =>
    match f (s.drop (k + 1)) with
    | some caps => some (s.take (k + 1) :: caps)
    | none => tryGreedy f s k

/-- Anchored match of a compiled pattern against a whole string, returning
the list of captured substrings.  Models the JS regex semantics of the
patterns produced by `convertToRegExp` (leftmost-greedy with
backtracking). -/
def patMatch : List PatSeg → List Char → Option (List (List Char))
  | [] => fun s => if s.isEmpty then some [] else none
  | .lit c :: rest => fun s =>
    match s with
    | [] => none
    | x :: xs => if x = c then patMatch rest xs else none
  | .group :: rest => fun s => tryGreedy (patMatch rest) s (maxRunNonSlash s)

/-- Model of `path.match(route.path)` (line 127) for the anchored compiled
pattern: on success the returned match list is the full match (which the
anchors force to be the whole path, so the `match[0] === path` test on
line 128 is automatically true) followed by the captures. -/
def regexMatch (p : CompiledPattern) (path : String) : Option (List String) :=
  match patMatch p.segs path.data with
  | some caps => some (path :: caps.map String.mk)
  | none => none

/-- Escape forward slashes, as `RegExp.prototype.source` does. -/
def escSlashes (s : String) : String :=
  String.join (s.data.map fun c => if c = '/' then "\\/" else String.singleton c)

/-- Model of `RegExp.prototype.toString` (used on line 228): the escaped
source between slash delimiters, with no flags. -/
def regexToString (p : CompiledPattern) : String :=
  "/" ++ escSlashes p.source ++ "/"

/-- Matches of the global regex `/:([a-zA-Z0-9]+)/g` in a string, each
returned as the full `:name` match (line 228). -/
def scanColonRuns (s : String) : List String :=
  (lexPath s.data).filterMap fun t =>
    match t with
    | .colonRun name => some (":" ++ String.mk name)
    | .lit _ => none

/-- Pairing loop of `extractParams` (lines 229-231): key number `i` is
bound to `match[i + 1]`.  An out-of-range group access would be
`undefined` in JS; it is rendered here as the string `"undefined"` (the
relevant theorems show the key list is empty at the inputs evaluated). -/
def extractLoop : List String → List String → Nat → StrMap
  | [], _, _ => []
  | key :: keys, matchList, i =>
    (key.drop 1, matchList.getD (i + 1) "undefined") :: extractLoop keys matchList (i + 1)

/-- Model of `Router.extractParams` (lines 226-233): scan the *stringified
compiled regex* for `:name` keys and pair them with the captures.  (The
compiled source no longer contains any `:name` — the replacement removed
them — which is exactly the behaviour under verification.) -/
def extractParams (pattern : CompiledPattern) (matchList : List String) : StrMap :=
  extractLoop (scanColonRuns (regexToString pattern)) matchList 0

/-- JS exception as observed by `errorHandler` (src/src/error_handler.ts):
its `name`, `message`, whether it is an `instanceof CustomError`, and (for
custom errors) the `statusCode` field. -/
structure JsError where
  name : String
  message : String
  isCustomError : Bool
  statusCode : Nat
deriving DecidableEq

/-- Model of `new UndefinedPathError()` (error_handler.ts lines 13-18). -/
def undefinedPathError : JsError :=
  { name := "UndefinedPathError", message := "정의되지 않은 경로입니다."
  , isCustomError := true, statusCode := 404 }

/-- Model of `new ForbiddenError()` with the default message
(error_handler.ts lines 29-34). -/
def forbiddenError : JsError :=
  { name := "ForbiddenError", message := "권한이 없습니다."
  , isCustomError := true, statusCode := 403 }

/-- Model of the `SyntaxError` thrown by `JSON.parse` on malformed input:
a plain platform error, not a `CustomError`. -/
def jsParseError (msg : String) : JsError :=
  { name := "SyntaxError", message := msg, isCustomError := false, statusCode := 0 }

/-- Model of the `TypeError` thrown by a property access on `null`. -/
def jsNullAccessError : JsError :=
  { name := "TypeError", message := "Cannot read properties of null"
  , isCustomError := false, statusCode := 0 }

/-- Model of `JSON.parse` returning a `Json` or throwing a `SyntaxError`. -/
def jsonParse (s : String) : Except JsError Json :=
  match jsonParseStr s with
  | .ok j => .ok j
  | .error m => .error (jsParseError m)

/-- Wire response leaving the dispatcher: status code plus a serialized
JSON body (`{ statusCode, body: JSON.stringify(...) }`). -/
structure SerializedResponse where
  statusCode : Nat
  body : String
deriving DecidableEq

/-- Model of `errorHandler` (error_handler.ts lines 84-119): custom errors
keep their `statusCode`, anything else becomes 500; the body serializes
`{ message, error: error.name }` (the `console.error` logging is a sink
with no effect on the returned response). -/
def errorHandler (e : JsError) : SerializedResponse :=
  { statusCode := if e.isCustomError then e.statusCode else 500
  , body := jsonStringify (.obj
      [ ("message", .str (if e.message = "" then "Internal Server Error" else e.message))
      , ("error", .str e.name) ]) }

/-- Model of the `APIGatewayEvent` fields the router reads or writes.
`pathParameters` is the mutable slot filled during dynamic dispatch. -/
structure APIGatewayEvent where
  httpMethod : String
  path : String
  body : Option String
  queryStringParameters : Option StrMap
  headers : Option StrMap
  pathParameters : Option StrMap
deriving DecidableEq

/-- JS value handed to a handler argument position by the binder. -/
inductive Value where
  | undefinedV
  | nullV
  | str (s : String)
  | json (j : Json)
  | strMap (m : StrMap)

/-- Parameter descriptor stored by the `@Body`/`@Query`/`@Params`/`@Headers`
decorators (lines 271-333): argument position, source tag (the `type`
string of the switch on line 179), and the optional key. -/
structure ParamMeta where
  index : Nat
  type : String
  param : Option String
deriving DecidableEq

/-- Handler `Response` prior to normalization: `{ statusCode, body:
{ message, data? } }` (lines 26-32). -/
structure RespBody where
  message : String
  data : Option Json

/-- Handler result structure. -/
structure Response where
  statusCode : Nat
  body : RespBody

/-- Serialization of a success body: `JSON.stringify(res.body)` with keys
in declaration order, `data` omitted when absent. -/
def stringifyRespBody (b : RespBody) : String :=
  jsonStringify (.obj
    (("message", Json.str b.message) ::
      (match b.data with
       | some d => [("data", d)]
       | none => [])))

/-- Handler together with its parameter metadata.  In the source the
metadata lives in `reflect-metadata` storage keyed by the handler; here it
is carried alongside the callable.  The handler itself is opaque caller
code: it receives the bound argument list and returns a `Response` or
throws. -/
structure HandlerF where
  paramsMeta : List ParamMeta
  run : List Value → Except JsError Response

/-- Guard: opaque caller code receiving the event, returning a boolean and
the (possibly mutated) event, or throwing. -/
def Guard : Type :=
  APIGatewayEvent → Except JsError (Bool × APIGatewayEvent)

/-- Middleware (and logger): opaque caller code receiving the event,
returning the (possibly mutated) event, or throwing. -/
def Middleware : Type :=
  APIGatewayEvent → Except JsError APIGatewayEvent

/-- Static route entry (lines 12-17). -/
structure StaticRoute where
  method : String
  path : String
  handler : HandlerF
  guards : List Guard

/-- Dynamic route entry (lines 19-24): the path is the compiled pattern. -/
structure DynamicRoute where
  method : String
  path : CompiledPattern
  handler : HandlerF
  guards : List Guard

/-- Router state (lines 44-49). -/
structure Router where
  staticRoutes : List StaticRoute
  dynamicRoutes : List DynamicRoute
  middlewares : List Middleware
  logger : Option Middleware

/-- Model of `createRouter()` (lines 40-42). -/
def createRouter : Router :=
  { staticRoutes := [], dynamicRoutes := [], middlewares := [], logger := none }

/-- Model of `Router.useLogger` (lines 52-54). -/
def useLogger (r : Router) (lg : Middleware) : Router :=
  { r with logger := some lg }

/-- Model of `Router.use` (lines 57-59). -/
def use (r : Router) (mw : Middleware) : Router :=
  { r with middlewares := r.middlewares ++ [mw] }

/-- Route data declared on one controller method by the decorators:
HTTP method, method-level path, guards, and the handler with its
parameter metadata.  This replaces the `reflect-metadata` lookup in
`addRoute` (lines 66-77) by explicit data. -/
structure MethodDescr where
  method : String
  path : String
  guards : List Guard
  handler : HandlerF

/-- Model of `path.includes(':')` (line 80). -/
def containsColon (s : String) : Bool :=
  s.data.contains ':'

/-- Model of `Router.addRoute` (lines 62-99): for each controller method,
classify by whether the *method-level* path contains `':'`; dynamic paths
are compiled from `controllerPath + path`; entries are appended in
declaration order. -/
def addRoute (r : Router) (controllerPath : String) (methods : List MethodDescr) : Router :=
  methods.foldl
    (fun acc d =>
      if containsColon d.path then
        { acc with dynamicRoutes := acc.dynamicRoutes ++
            [{ method := d.method, path := convertToRegExp (controllerPath ++ d.path)
             , handler := d.handler, guards := d.guards }] }
      else
        { acc with staticRoutes := acc.staticRoutes ++
            [{ method := d.method, path := controllerPath ++ d.path
             , handler := d.handler, guards := d.guards }] })
    r

/-- Last-assignment-wins lookup in a JS-object built by repeated
assignment (duplicate keys in a JSON text keep the last value). -/
def objGetLast (fs : List (String × Json)) (k : String) : Option Json :=
  fs.foldl (fun acc kv => if kv.1 = k then some kv.2 else acc) none

/-- Property access `j[param]` on a parsed JSON value (line 186): field
lookup on objects, a thrown `TypeError` on `null`, `undefined` on the
other values (array index and string index access are outside the
modelled fragment). -/
def jsonIndex (j : Json) (k : String) : Except JsError Value :=
  match j with
  | .obj fs =>
    .ok (match objGetLast fs k with
         | some v => .json v
         | none => .undefinedV)
  | .null => .error jsNullAccessError
  | _ => .ok .undefinedV

/-- Value bound for one parameter descriptor: the `switch` of
`invokeHandler` (lines 178-206).  Only the `body` case can throw. -/
def bindParam (ev : APIGatewayEvent) (meta : ParamMeta) : Except JsError Value :=
  if meta.type = "body" then
    match ev.body with
    | none => .ok .undefinedV
    | some b =>
      if b = "" then .ok .undefinedV
      else
        match jsonParse b with
        | .error e => .error e
        | .ok j =>
          match meta.param with
          | some k => jsonIndex j k
          | none => .ok (.json j)
  else if meta.type = "query" then
    .ok (match meta.param with
         | some k =>
           match ev.queryStringParameters with
           | none => .undefinedV
           | some m =>
             match lookupStr m k with
             | some v => .str v
             | none => .undefinedV
         | none =>
           match ev.queryStringParameters with
           | none => .nullV
           | some m => .strMap m)
  else if meta.type = "params" then
    .ok (match meta.param with
         | some k =>
           match ev.pathParameters with
           | none => .undefinedV
           | some m =>
             match lookupStr m k with
             | some v => .str v
             | none => .undefinedV
         | none =>
           match ev.pathParameters with
           | none => .nullV
           | some m => .strMap m)
  else if meta.type = "headers" then
    .ok (match meta.param with
         | some k =>
           match ev.headers with
           | none => .undefinedV
           | some m =>
             match lookupStr m (lowerString k) with
             | some v => .str v
             | none => .undefinedV
         | none =>
           match ev.headers with
           | none => .undefinedV
           | some m => .strMap m)
  else .ok .undefinedV

/-- Binding loop of `invokeHandler` (lines 177-207): process descriptors
in declaration order, recording `args[index] = value`; the first throw
aborts the loop. -/
def bindArgsLoop : List ParamMeta → APIGatewayEvent → Except JsError (List (Nat × Value))
  | [], _ => .ok []
  | meta :: metas, ev =>
    match bindParam ev meta with
    | .error e => .error e
    | .ok v =>
      match bindArgsLoop metas ev with
      | .error e => .error e
      | .ok rest => .ok ((meta.index, v) :: rest)

/-- Value at position `i` after the assignments (later assignments to the
same index overwrite earlier ones; unassigned holes are `undefined`). -/
def argAt (assigns : List (Nat × Value)) (i : Nat) : Value :=
  assigns.foldl (fun acc iv => if iv.1 = i then iv.2 else acc) .undefinedV

/-- Materialize the `args` array: length is one past the largest assigned
index, holes are `undefined` (JS array spread of a sparse array). -/
def buildArgs (assigns : List (Nat × Value)) : List Value :=
  let n := assigns.foldl (fun acc iv => max acc (iv.1 + 1)) 0
  (List.range n).map (argAt assigns)

/-- Model of `Router.invokeHandler` (lines 162-217): bind the arguments
from the event, call the handler, and normalize the response by
serializing its body. -/
def invokeHandler (h : HandlerF) (ev : APIGatewayEvent) : Except JsError SerializedResponse :=
  match bindArgsLoop h.paramsMeta ev with
  | .error e => .error e
  | .ok assigns =>
    match h.run (buildArgs assigns) with
    | .error e => .error e
    | .ok res => .ok { statusCode := res.statusCode, body := stringifyRespBody res.body }

/-- Model of `Router.processGuards` (lines 148-160): run the guards in
order; the first `false` raises `ForbiddenError`; a thrown exception
propagates as-is. -/
def processGuards : List Guard → APIGatewayEvent → Except JsError APIGatewayEvent
  | [], ev => .ok ev
  | g :: gs, ev =>
    match g ev with
    | .error e => .error e
    | .ok (result, ev') =>
      if result then processGuards gs ev' else .error forbiddenError

/-- Model of the static lookup (lines 117-119): first route with equal
method and exact path. -/
def findStaticRoute (routes : List StaticRoute) (httpMethod path : String) :
    Option StaticRoute :=
  routes.find? fun r => r.method = httpMethod && r.path = path

/-- Model of the dynamic lookup (lines 126-135): first route whose
compiled pattern matches the whole path; the route's `method` field is
not consulted.  Returns the route and the JS match list. -/
def findDynamicRoute (routes : List DynamicRoute) (path : String) :
    Option (DynamicRoute × List String) :=
  match routes with
  | [] => none
  | r :: rest =>
    match regexMatch r.path path with
    | some matchList => some (r, matchList)
    | none => findDynamicRoute rest path

/-- Errors inside `handleRequest` carry the event state current when the
exception reaches the dispatcher, so the caught branch can return it. -/
abbrev DispatchErr := JsError × APIGatewayEvent

/-- Run the optional logger (lines 107-109). -/
def runLogger (lg : Option Middleware) (ev : APIGatewayEvent) :
    Except DispatchErr APIGatewayEvent :=
  match lg with
  | none => .ok ev
  | some l =>
    match l ev with
    | .error e => .error (e, ev)
    | .ok ev' => .ok ev'

/-- Run the middleware list in order (lines 112-114). -/
def runMiddlewares : List Middleware → APIGatewayEvent → Except DispatchErr APIGatewayEvent
  | [], ev => .ok ev
  | mw :: mws, ev =>
    match mw ev with
    | .error e => .error (e, ev)
    | .ok ev' => runMiddlewares mws ev'

/-- Route matching stage (lines 116-142): static lookup first; then
dynamic lookup, whose hit writes `event.pathParameters` from
`extractParams`; no hit raises `UndefinedPathError`.  Both lookups use the
method and path captured from the event at entry (line 103). -/
def matchStage (router : Router) (httpMethod path : String) (ev : APIGatewayEvent) :
    Except DispatchErr ((List Guard × HandlerF) × APIGatewayEvent) :=
  match findStaticRoute router.staticRoutes httpMethod path with
  | some r => .ok ((r.guards, r.handler), ev)
  | none =>
    match findDynamicRoute router.dynamicRoutes path with
    | some (r, matchList) =>
      .ok ((r.guards, r.handler),
           { ev with pathParameters := some (extractParams r.path matchList) })
    | none => .error (undefinedPathError, ev)

/-- Guard-and-invoke stage for the matched route (lines 121-122 and
138-139). -/
def runRoute (gs : List Guard) (h : HandlerF) (ev : APIGatewayEvent) :
    Except DispatchErr (SerializedResponse × APIGatewayEvent) :=
  match processGuards gs ev with
  | .error e => .error (e, ev)
  | .ok ev' =>
    match invokeHandler h ev' with
    | .error e => .error (e, ev')
    | .ok resp => .ok (resp, ev')

/-- Body of the `try` block of `handleRequest` (lines 105-142). -/
def dispatchCore (router : Router) (httpMethod path : String) (ev : APIGatewayEvent) :
    Except DispatchErr (SerializedResponse × APIGatewayEvent) := do
  let ev ← runLogger router.logger ev
  let ev ← runMiddlewares router.middlewares ev
  let (rh, ev) ← matchStage router httpMethod path ev
  runRoute rh.1 rh.2 ev

/-- Catch clause of `handleRequest` (lines 143-145): any raised error is
translated by `errorHandler`. -/
def finishResponse (r : Except DispatchErr (SerializedResponse × APIGatewayEvent)) :
    SerializedResponse × APIGatewayEvent :=
  match r with
  | .ok (resp, ev) => (resp, ev)
  | .error (e, ev) => (errorHandler e, ev)

/-- Model of `Router.handleRequest` (lines 102-146).  The routing method
and path are destructured from the event *before* any middleware runs
(line 103).  The returned pair is the wire response plus the final event
state (observable to the caller through the mutated event object). -/
def handleRequest (router : Router) (event : APIGatewayEvent) :
    SerializedResponse × APIGatewayEvent :=
  finishResponse (dispatchCore router event.httpMethod event.path event)

/-- JS template-literal coercion of a bound value to a string, as used by
the demo handlers below (caller code mirroring the README examples). -/
def valueShow (v : Value) : String :=
  match v with
  | .undefinedV => "undefined"
  | .nullV => "null"
  | .str s => s
  | .json _ => "[object]"
  | .strMap _ => "[object Object]"

/-- Event with only method and path set. -/
def mkEvent (m p : String) : APIGatewayEvent :=
  { httpMethod := m, path := p, body := none
  , queryStringParameters := none, headers := none, pathParameters := none }

/-- Demo handler of the README `getItem` example: echoes the `id` path
parameter into the message. -/
def echoItemHandler : HandlerF :=
  { paramsMeta := [⟨0, "params", some "id"⟩]
  , run := fun args =>
      .ok { statusCode := 200
          , body := { message := "Item ID: " ++ valueShow (args.getD 0 .undefinedV)
                    , data := none } } }

/-- Demo POST handler answering 201. -/
def created201Handler : HandlerF :=
  { paramsMeta := []
  , run := fun _ => .ok { statusCode := 201, body := { message := "created", data := none } } }

/-- Demo handler with a whole-body parameter, answering 200. -/
def bodyOkHandler : HandlerF :=
  { paramsMeta := [⟨0, "body", none⟩]
  , run := fun _ => .ok { statusCode := 200, body := { message := "ok", data := none } } }

/-- Guard that always passes without touching the event. -/
def gTrue : Guard := fun ev => .ok (true, ev)

/-- Guard that always denies without touching the event. -/
def gFalse : Guard := fun ev => .ok (false, ev)

/-- Splitting lemma for guard execution over an appended list. -/
theorem processGuards_append (xs ys : List Guard) (ev : APIGatewayEvent) :
    processGuards (xs ++ ys) ev =
      match processGuards xs ev with
      | .ok ev' => processGuards ys ev'
      | .error e => .error e := by
  induction xs generalizing ev with
  | nil => simp [processGuards]
  | cons g gs ih =>
    simp only [List.cons_append, processGuards]
    cases g ev with
    | error e => rfl
    | ok p =>
      by_cases hb : p.1
      · simp [hb, ih]
      · simp at hb
        simp [hb]

/-- Splitting lemma for middleware execution over an appended list. -/
theorem runMiddlewares_append (xs ys : List Middleware) (ev : APIGatewayEvent) :
    runMiddlewares (xs ++ ys) ev =
      match runMiddlewares xs ev with
      | .ok ev' => runMiddlewares ys ev'
      | .error e => .error e := by
  induction xs generalizing ev with
  | nil => simp [runMiddlewares]
  | cons mw mws ih =>
    simp only [List.cons_append, runMiddlewares]
    cases mw ev with
    | error e => rfl
    | ok ev' => simp [ih]

/-- Every error raised by the modelled `JSON.parse` is a plain platform
`SyntaxError`, never an `instanceof CustomError`. -/
theorem jsonParse_error_not_custom (b : String) (e : JsError)
    (h : jsonParse b = .error e) : e.isCustomError = false := by
  unfold jsonParse at h
  cases hj : jsonParseStr b with
  | ok j => rw [hj] at h; cases h
  | error m =>
    rw [hj] at h
    cases h
    rfl

/-- A descriptor whose source tag is not `"body"` always binds. -/
theorem bindParam_ok_of_not_body (ev : APIGatewayEvent) (meta : ParamMeta)
    (h : meta.type ≠ "body") : ∃ v, bindParam ev meta = .ok v := by
  unfold bindParam
  rw [if_neg h]
  split_ifs <;> exact ⟨_, rfl⟩

/-- When the request body is present, non-empty, and unparseable, the
binding loop of any descriptor list containing a `body` descriptor raises
the parse error. -/
theorem bindArgsLoop_body_parse_error
    (metas : List ParamMeta) (ev : APIGatewayEvent) (b : String) (pe : JsError)
    (hb : ev.body = some b) (hne : b ≠ "") (hp : jsonParse b = .error pe)
    (hmem : ∃ m ∈ metas, m.type = "body") :
    bindArgsLoop metas ev = .error pe := by
  induction metas with
  | nil => rcases hmem with ⟨m, hm, _⟩; cases hm
  | cons meta rest ih =>
    by_cases hty : meta.type = "body"
    · have hbind : bindParam ev meta = .error pe := by
        unfold bindParam
        rw [if_pos hty, hb]
        simp [hne, hp]
      simp [bindArgsLoop, hbind]
    · rcases bindParam_ok_of_not_body ev meta hty with ⟨v, hv⟩
      rcases hmem with ⟨m, hm, hmty⟩
      rcases List.mem_cons.mp hm with rfl | hmrest
      · exact absurd hmty hty
      · have := ih ⟨m, hmrest, hmty⟩
        simp [bindArgsLoop, hv, this]

/-- Dynamic route registered for method `POST` on template `/users/:id`. -/
def c1DynRoute : DynamicRoute :=
  { method := "POST", path := convertToRegExp "/users/:id"
  , handler := created201Handler, guards := [] }

/-- Router holding only the POST dynamic route. -/
def c1Router : Router :=
  { staticRoutes := [], dynamicRoutes := [c1DynRoute], middlewares := [], logger := none }

/-- GET request whose path matches the POST route's pattern. -/
def c1Event : APIGatewayEvent := mkEvent "GET" "/users/42"

/-- C1: refuted at a concrete input.  Dynamic route lookup never consults
the route's method (the `find` on lines 126-135 tests only the pattern):
a GET request selects the dynamic route registered for POST, and its
handler answers, although the claim says such a route is never selected. -/
theorem c1_dynamic_lookup_ignores_method :
    c1DynRoute.method = "POST" ∧ c1Event.httpMethod = "GET" ∧
    findDynamicRoute c1Router.dynamicRoutes c1Event.path
      = some (c1DynRoute, ["/users/42", "42"]) ∧
    (handleRequest c1Router c1Event).1.statusCode = 201 :=
  ⟨rfl, rfl, rfl, rfl⟩

/-- Dynamic GET route for `/users/:id` with the echoing item handler. -/
def c2DynRoute : DynamicRoute :=
  { method := "GET", path := convertToRegExp "/users/:id"
  , handler := echoItemHandler, guards := [] }

/-- Router of the README dynamic-routing scenario. -/
def c2Router : Router :=
  { staticRoutes := [], dynamicRoutes := [c2DynRoute], middlewares := [], logger := none }

/-- Request of the scenario: GET `/users/42`. -/
def c2Event : APIGatewayEvent := mkEvent "GET" "/users/42"

/-- C2: refuted at the claim's own scenario.  `extractParams` scans the
*stringified compiled regex* for `:name` keys (line 228), but the
compilation already replaced every `:name` by `([^/]+)` (line 221), so the
key list is empty, the resolved path parameters are the empty mapping, and
the echoing handler answers `Item ID: undefined` instead of the claimed
`Item ID: 42`. -/
theorem c2_extract_params_empty :
    scanColonRuns (regexToString (convertToRegExp "/users/:id")) = [] ∧
    extractParams (convertToRegExp "/users/:id") ["/users/42", "42"] = [] ∧
    (handleRequest c2Router c2Event).2.pathParameters = some [] ∧
    (handleRequest c2Router c2Event).1
      = { statusCode := 200, body := "\x7b\"message\":\"Item ID: undefined\"\x7d" } :=
  ⟨rfl, rfl, rfl, rfl⟩

/-- Dynamic POST route on `/users/:id`; no static routes exist. -/
def c7DynRoute : DynamicRoute :=
  { method := "POST", path := convertToRegExp "/users/:id"
  , handler := created201Handler, guards := [] }

/-- Router with the POST dynamic route only. -/
def c7Router : Router :=
  { staticRoutes := [], dynamicRoutes := [c7DynRoute], middlewares := [], logger := none }

/-- GET request: by the spec's matching rules (method must agree) it
matches no registered route. -/
def c7Event : APIGatewayEvent := mkEvent "GET" "/users/7"

/-- C7: refuted at a concrete input.  A GET request that matches no route
by the spec's rules (the only dynamic route is registered for POST) does
not produce the claimed 404 `UndefinedPathError` response: because the
dynamic lookup ignores the method, the POST route's handler answers 201. -/
theorem c7_unmatched_method_not_404 :
    findStaticRoute c7Router.staticRoutes c7Event.httpMethod c7Event.path = none ∧
    c7DynRoute.method ≠ c7Event.httpMethod ∧
    (handleRequest c7Router c7Event).1.statusCode = 201 ∧
    (handleRequest c7Router c7Event).1.statusCode ≠ 404 ∧
    (errorHandler undefinedPathError).statusCode = 404 :=
  ⟨rfl, by decide, rfl, by decide, rfl⟩

/-- Static POST route on `/items` whose handler declares a whole-body
parameter. -/
def c3StaticRoute : StaticRoute :=
  { method := "POST", path := "/items", handler := bodyOkHandler, guards := [] }

/-- Router holding the body-consuming route. -/
def c3Router : Router :=
  { staticRoutes := [c3StaticRoute], dynamicRoutes := [], middlewares := [], logger := none }

/-- POST request carrying the malformed body `"{"`. -/
def c3Event : APIGatewayEvent :=
  { mkEvent "POST" "/items" with body := some "\x7b" }

/-- C3 counterexample: a present but malformed body on a route with a
`Body` descriptor yields status 500, not the claimed 400: the
`SyntaxError` raised by `JSON.parse` is not an `instanceof CustomError`,
so `errorHandler` (error_handler.ts line 112) defaults it to 500. -/
theorem c3_counterexample :
    (handleRequest c3Router c3Event).1.statusCode = 500 ∧
    (handleRequest c3Router c3Event).1.statusCode ≠ 400 ∧
    (handleRequest c3Router c3Event).1.body
      = "\x7b\"message\":\"Unexpected end of JSON input\",\"error\":\"SyntaxError\"\x7d" :=
  ⟨rfl, by decide, rfl⟩

/-- Controller method with a colon-free method-level path. -/
def c8Descr : MethodDescr :=
  { method := "GET", path := "/a", guards := [], handler := created201Handler }

/-- C8 counterexample: with controller prefix `/:v` and method-level path
`/a`, the full template `/:v/a` contains a placeholder, yet `addRoute`
classifies the route as static, because the check on line 80 tests only
the method-level path for `':'`. -/
theorem c8_counterexample :
    containsColon ("/:v" ++ "/a") = true ∧
    (addRoute createRouter "/:v" [c8Descr]).staticRoutes.map (fun r => (r.method, r.path))
      = [("GET", "/:v/a")] ∧
    (addRoute createRouter "/:v" [c8Descr]).dynamicRoutes = [] :=
  ⟨rfl, rfl, rfl⟩

/-- C8 (amended): registration classifies a controller method as static
exactly when its *method-level* path (the controller prefix is not
consulted) contains no `':'` character; otherwise it is dynamic and the
concatenated template is compiled; both collections grow by appending in
declaration order. -/
theorem c8_classification (r : Router) (cp : String) (ds : List MethodDescr) :
    (addRoute r cp ds).staticRoutes
      = r.staticRoutes ++ (ds.filter fun d => !containsColon d.path).map
          (fun d => { method := d.method, path := cp ++ d.path
                    , handler := d.handler, guards := d.guards })
    ∧ (addRoute r cp ds).dynamicRoutes
      = r.dynamicRoutes ++ (ds.filter fun d => containsColon d.path).map
          (fun d => { method := d.method, path := convertToRegExp (cp ++ d.path)
                    , handler := d.handler, guards := d.guards })
    ∧ (addRoute r cp ds).middlewares = r.middlewares
    ∧ (addRoute r cp ds).logger = r.logger := by
  induction ds generalizing r with
  | nil => simp [addRoute]
  | cons d ds ih =>
    have step : addRoute r cp (d :: ds)
        = addRoute
            (if containsColon d.path then
              { r with dynamicRoutes := r.dynamicRoutes ++
                  [{ method := d.method, path := convertToRegExp (cp ++ d.path)
                   , handler := d.handler, guards := d.guards }] }
             else
              { r with staticRoutes := r.staticRoutes ++
                  [{ method := d.method, path := cp ++ d.path
                   , handler := d.handler, guards := d.guards }] }) cp ds := by
      by_cases hc : containsColon d.path <;> simp [addRoute, hc]
    rw [step]
    by_cases hc : containsColon d.path
    · rcases ih (r := { r with dynamicRoutes := r.dynamicRoutes ++
        [{ method := d.method, path := convertToRegExp (cp ++ d.path)
         , handler := d.handler, guards := d.guards }] }) with ⟨h1, h2, h3, h4⟩
      rw [if_pos hc]
      refine ⟨?_, ?_, ?_, ?_⟩ <;> simp_all [List.filter]
    · rcases ih (r := { r with staticRoutes := r.staticRoutes ++
        [{ method := d.method, path := cp ++ d.path
         , handler := d.handler, guards := d.guards }] }) with ⟨h1, h2, h3, h4⟩
      rw [if_neg hc]
      refine ⟨?_, ?_, ?_, ?_⟩ <;> simp_all [List.filter]

/-- Header parameter descriptor with a mixed-case key. -/
def c9Meta : ParamMeta := { index := 0, type := "headers", param := some "X-Token" }

/-- Event whose header is stored under the mixed-case spelling. -/
def c9Event : APIGatewayEvent :=
  { mkEvent "GET" "/h" with headers := some [("X-Token", "secret")] }

/-- C9 counterexample: the header is stored under `X-Token` — a casing of
the descriptor key — yet binding yields `undefined`, because the lookup
is an exact property access with the lower-cased key `x-token` (line 201)
and nothing normalizes the stored keys. -/
theorem c9_counterexample :
    lookupStr [("X-Token", "secret")] "X-Token" = some "secret" ∧
    lowerString "X-Token" = "x-token" ∧
    bindParam c9Event c9Meta = .ok .undefinedV :=
  ⟨rfl, rfl, rfl⟩

/-- C9 (amended): for a Header descriptor with a key, binding lower-cases
the key and then performs an exact lookup in the stored header mapping:
the dispatched handler receives precisely the value stored under the
all-lower-case spelling of the key, and `undefined` when no entry has
exactly that spelling (storage is not normalized by the router). -/
theorem c9_header_key_lowercased
    (m p k : String) (i : Nat) (hs : StrMap)
    (run0 : List Value → Except JsError Response) (resp : Response)
    (ev : APIGatewayEvent)
    (hm : ev.httpMethod = m) (hp : ev.path = p) (hh : ev.headers = some hs)
    (hrun : run0 (buildArgs [(i,
        match lookupStr hs (lowerString k) with
        | some v => Value.str v
        | none => Value.undefinedV)]) = .ok resp) :
    handleRequest
      { staticRoutes := [{ method := m, path := p
                         , handler := { paramsMeta := [⟨i, "headers", some k⟩], run := run0 }
                         , guards := [] }]
      , dynamicRoutes := [], middlewares := [], logger := none } ev
    = ({ statusCode := resp.statusCode, body := stringifyRespBody resp.body }, ev) := by
  subst hm hp
  simp [handleRequest, dispatchCore, runLogger, runMiddlewares, matchStage,
        findStaticRoute, List.find?, runRoute, processGuards, invokeHandler,
        bindArgsLoop, bindParam, hh, hrun, finishResponse,
        Bind.bind, Except.bind]

/-- Demo handler body echoing its first argument into the message. -/
def w9run : List Value → Except JsError Response :=
  fun args =>
    .ok { statusCode := 200
        , body := { message := valueShow (args.getD 0 .undefinedV), data := none } }

/-- Event of the C9 witness: header stored under the lower-case key. -/
def w9Event : APIGatewayEvent :=
  { mkEvent "GET" "/w9" with headers := some [("x-api-key", "v1")] }

/-- C9 witness: a concrete dispatch in which the header stored under the
all-lower-case key is delivered to the handler. -/
theorem c9_header_key_lowercased_witness :
    w9Event.httpMethod = "GET" ∧
    w9Event.path = "/w9" ∧
    w9Event.headers = some [("x-api-key", "v1")] ∧
    w9run (buildArgs [(0,
        match lookupStr [("x-api-key", "v1")] (lowerString "X-Api-Key") with
        | some v => Value.str v
        | none => Value.undefinedV)])
      = .ok { statusCode := 200, body := { message := "v1", data := none } } ∧
    handleRequest
      { staticRoutes := [{ method := "GET", path := "/w9"
                         , handler := { paramsMeta := [⟨0, "headers", some "X-Api-Key"⟩]
                                      , run := w9run }
                         , guards := [] }]
      , dynamicRoutes := [], middlewares := [], logger := none } w9Event
    = ({ statusCode := 200, body := stringifyRespBody { message := "v1", data := none } },
       w9Event) := by
  refine ⟨rfl, rfl, rfl, rfl, ?_⟩
  exact c9_header_key_lowercased "GET" "/w9" "X-Api-Key" 0 [("x-api-key", "v1")]
    w9run { statusCode := 200, body := { message := "v1", data := none } }
    w9Event rfl rfl rfl rfl

/-- C3 (amended): when the matched route's handler has a `body` parameter
descriptor and the request body is present, non-empty, and malformed, the
parse failure is caught by the dispatcher and translated into an error
response with status code 500 (the `SyntaxError` is not a recognized
`CustomError` kind); the pipeline does not crash. -/
theorem c3_parse_failure_yields_500
    (router : Router) (ev evA evB evC evD : APIGatewayEvent)
    (gs : List Guard) (h : HandlerF) (b : String) (pe : JsError)
    (h1 : runLogger router.logger ev = .ok evA)
    (h2 : runMiddlewares router.middlewares evA = .ok evB)
    (h3 : matchStage router ev.httpMethod ev.path evB = .ok ((gs, h), evC))
    (h4 : processGuards gs evC = .ok evD)
    (h5 : evD.body = some b) (h6 : b ≠ "")
    (h7 : jsonParse b = .error pe)
    (h8 : ∃ m ∈ h.paramsMeta, m.type = "body") :
    handleRequest router ev = (errorHandler pe, evD) ∧
    (handleRequest router ev).1.statusCode = 500 := by
  have hloop := bindArgsLoop_body_parse_error h.paramsMeta evD b pe h5 h6 h7 h8
  have hinv : invokeHandler h evD = .error pe := by
    simp [invokeHandler, hloop]
  have hmain : handleRequest router ev = (errorHandler pe, evD) := by
    simp [handleRequest, dispatchCore, h1, h2, h3, Bind.bind, Except.bind,
          runRoute, h4, hinv, finishResponse]
  refine ⟨hmain, ?_⟩
  rw [hmain]
  simp [errorHandler, jsonParse_error_not_custom b pe h7]

/-- C3 witness: the concrete malformed-body dispatch, with every
hypothesis of the amended theorem discharged at it. -/
theorem c3_parse_failure_yields_500_witness :
    runLogger c3Router.logger c3Event = .ok c3Event ∧
    runMiddlewares c3Router.middlewares c3Event = .ok c3Event ∧
    matchStage c3Router c3Event.httpMethod c3Event.path c3Event
      = .ok (([], bodyOkHandler), c3Event) ∧
    processGuards [] c3Event = .ok c3Event ∧
    c3Event.body = some "\x7b" ∧
    "\x7b" ≠ "" ∧
    jsonParse "\x7b" = .error (jsParseError "Unexpected end of JSON input") ∧
    (∃ m ∈ bodyOkHandler.paramsMeta, m.type = "body") ∧
    handleRequest c3Router c3Event
      = (errorHandler (jsParseError "Unexpected end of JSON input"), c3Event) ∧
    (handleRequest c3Router c3Event).1.statusCode = 500 := by
  refine ⟨rfl, rfl, rfl, rfl, rfl, by decide, rfl, by decide, ?_, ?_⟩
  · exact (c3_parse_failure_yields_500 c3Router c3Event c3Event c3Event c3Event c3Event
      [] bodyOkHandler "\x7b" (jsParseError "Unexpected end of JSON input")
      rfl rfl rfl rfl rfl (by decide) rfl (by decide)).1
  · exact (c3_parse_failure_yields_500 c3Router c3Event c3Event c3Event c3Event c3Event
      [] bodyOkHandler "\x7b" (jsParseError "Unexpected end of JSON input")
      rfl rfl rfl rfl rfl (by decide) rfl (by decide)).2

/-- C4: confirmed.  When a static route matches the request's method and
exact path, the dispatch outcome is independent of the registered dynamic
routes (whenever they were registered and whatever they match), and — as
soon as the logger and middleware succeed — the dispatch continues with
exactly the matched static route's guards and handler. -/
theorem c4_static_priority
    (router : Router) (ev : APIGatewayEvent) (r : StaticRoute)
    (hs : findStaticRoute router.staticRoutes ev.httpMethod ev.path = some r) :
    (∀ dr : List DynamicRoute,
        handleRequest { router with dynamicRoutes := dr } ev = handleRequest router ev)
    ∧ ∀ evA evB : APIGatewayEvent,
        runLogger router.logger ev = .ok evA →
        runMiddlewares router.middlewares evA = .ok evB →
        handleRequest router ev = finishResponse (runRoute r.guards r.handler evB) := by
  constructor
  · intro dr
    cases hl : runLogger router.logger ev with
    | error e => simp [handleRequest, dispatchCore, hl, Bind.bind, Except.bind]
    | ok evA =>
      cases hmw : runMiddlewares router.middlewares evA with
      | error e => simp [handleRequest, dispatchCore, hl, hmw, Bind.bind, Except.bind]
      | ok evB =>
        simp [handleRequest, dispatchCore, hl, hmw, Bind.bind, Except.bind,
              matchStage, hs]
  · intro evA evB h1 h2
    simp [handleRequest, dispatchCore, h1, h2, Bind.bind, Except.bind, matchStage, hs]

/-- Static handler answering 200 with a distinctive message. -/
def staticOkHandler : HandlerF :=
  { paramsMeta := []
  , run := fun _ => .ok { statusCode := 200, body := { message := "static", data := none } } }

/-- Static GET route on the exact path `/a`. -/
def c4Static : StaticRoute :=
  { method := "GET", path := "/a", handler := staticOkHandler, guards := [] }

/-- Dynamic GET route whose template `/:x` also matches the path `/a`. -/
def c4Dyn : DynamicRoute :=
  { method := "GET", path := convertToRegExp "/:x", handler := created201Handler, guards := [] }

/-- Router with only the static route registered. -/
def c4RouterBase : Router :=
  { staticRoutes := [c4Static], dynamicRoutes := [], middlewares := [], logger := none }

/-- Request hitting the exact static path. -/
def c4Event : APIGatewayEvent := mkEvent "GET" "/a"

/-- C4 witness: adding a dynamic route whose pattern matches the same
path does not change the dispatch, and the static route's handler runs. -/
theorem c4_static_priority_witness :
    findStaticRoute c4RouterBase.staticRoutes c4Event.httpMethod c4Event.path
      = some c4Static ∧
    handleRequest { c4RouterBase with dynamicRoutes := [c4Dyn] } c4Event
      = handleRequest c4RouterBase c4Event ∧
    handleRequest c4RouterBase c4Event
      = finishResponse (runRoute c4Static.guards c4Static.handler c4Event) :=
  ⟨rfl, (c4_static_priority c4RouterBase c4Event c4Static rfl).1 [c4Dyn],
   (c4_static_priority c4RouterBase c4Event c4Static rfl).2 c4Event c4Event rfl rfl⟩

/-- Plain (non-custom) error used by throwing demo stages. -/
def testError : JsError :=
  { name := "Error", message := "boom", isCustomError := false, statusCode := 0 }

/-- Guard that throws. -/
def gThrow : Guard := fun _ => .error testError

/-- C5: confirmed.  With the guards before `g` all succeeding, a `false`
from `g` makes guard processing fail with exactly `ForbiddenError`
(status 403) regardless of the guards after `g` (they are never
consulted), and the dispatch of a route carrying these guards returns the
translated 403 response for every handler (the handler is not invoked);
a guard that throws propagates its own error unchanged instead of being
treated as `false`. -/
theorem c5_guard_short_circuit
    (gs1 gs2 : List Guard) (g : Guard) (ev ev1 ev2 : APIGatewayEvent) (e : JsError)
    (hpre : processGuards gs1 ev = .ok ev1) :
    (g ev1 = .ok (false, ev2) →
      processGuards (gs1 ++ g :: gs2) ev = .error forbiddenError
      ∧ (errorHandler forbiddenError).statusCode = 403
      ∧ ∀ (m p : String) (h : HandlerF) (dr : List DynamicRoute),
          ev.httpMethod = m → ev.path = p →
          handleRequest
            { staticRoutes := [{ method := m, path := p, handler := h
                               , guards := gs1 ++ g :: gs2 }]
            , dynamicRoutes := dr, middlewares := [], logger := none } ev
          = (errorHandler forbiddenError, ev))
    ∧ (g ev1 = .error e → processGuards (gs1 ++ g :: gs2) ev = .error e) := by
  constructor
  · intro hfalse
    have hsc : processGuards (gs1 ++ g :: gs2) ev = .error forbiddenError := by
      rw [processGuards_append, hpre]
      simp [processGuards, hfalse]
    refine ⟨hsc, rfl, ?_⟩
    intro m p h dr hm hp
    subst hm hp
    simp [handleRequest, dispatchCore, runLogger, runMiddlewares, Bind.bind,
          Except.bind, matchStage, findStaticRoute, List.find?, runRoute, hsc,
          finishResponse]
  · intro herr
    rw [processGuards_append, hpre]
    simp [processGuards, herr]

/-- Event used by the C5 witness. -/
def c5Event : APIGatewayEvent := mkEvent "GET" "/g"

/-- C5 witness: concrete guard lists exhibiting the short-circuit, the 403
translation, the handler not being invoked, and exception propagation. -/
theorem c5_guard_short_circuit_witness :
    processGuards [gTrue] c5Event = .ok c5Event ∧
    gFalse c5Event = .ok (false, c5Event) ∧
    processGuards ([gTrue] ++ gFalse :: [gTrue]) c5Event = .error forbiddenError ∧
    (errorHandler forbiddenError).statusCode = 403 ∧
    handleRequest
      { staticRoutes := [{ method := "GET", path := "/g", handler := staticOkHandler
                         , guards := [gTrue] ++ gFalse :: [gTrue] }]
      , dynamicRoutes := [], middlewares := [], logger := none } c5Event
      = (errorHandler forbiddenError, c5Event) ∧
    gThrow c5Event = .error testError ∧
    processGuards ([gTrue] ++ gThrow :: [gTrue]) c5Event = .error testError := by
  refine ⟨rfl, rfl, ?_, rfl, ?_, rfl, ?_⟩
  · exact ((c5_guard_short_circuit [gTrue] [gTrue] gFalse c5Event c5Event c5Event
      testError rfl).1 rfl).1
  · exact ((c5_guard_short_circuit [gTrue] [gTrue] gFalse c5Event c5Event c5Event
      testError rfl).1 rfl).2.2 "GET" "/g" staticOkHandler [] rfl rfl
  · exact (c5_guard_short_circuit [gTrue] [gTrue] gThrow c5Event c5Event c5Event
      testError rfl).2 rfl

/-- Middleware that passes the event through unchanged. -/
def mwId : Middleware := fun ev => .ok ev

/-- Middleware that throws. -/
def mwFail : Middleware := fun _ => .error testError

/-- C6: confirmed.  A failing logger aborts the dispatch before any
user middleware, any route matching, and any guard (the response is its
translated error for every middleware list and route table); with the
logger succeeding and the middleware prefix succeeding, a failing
middleware aborts the dispatch before the remaining middleware, the route
matching, and the guards, for every suffix and route table. -/
theorem c6_pipeline_order
    (lg mw : Middleware) (ms1 ms2 : List Middleware) (ev evA evB : APIGatewayEvent)
    (e e1 : JsError) :
    (lg ev = .error e →
      ∀ (ms : List Middleware) (sr : List StaticRoute) (dr : List DynamicRoute),
        handleRequest { staticRoutes := sr, dynamicRoutes := dr
                      , middlewares := ms, logger := some lg } ev
          = (errorHandler e, ev))
    ∧ (lg ev = .ok evA → runMiddlewares ms1 evA = .ok evB → mw evB = .error e1 →
      ∀ (sr : List StaticRoute) (dr : List DynamicRoute),
        handleRequest { staticRoutes := sr, dynamicRoutes := dr
                      , middlewares := ms1 ++ mw :: ms2, logger := some lg } ev
          = (errorHandler e1, evB)) := by
  constructor
  · intro hlg ms sr dr
    simp [handleRequest, dispatchCore, runLogger, hlg, Bind.bind, Except.bind,
          finishResponse]
  · intro hlg hms hmw sr dr
    have hrun : runMiddlewares (ms1 ++ mw :: ms2) evA = .error (e1, evB) := by
      rw [runMiddlewares_append, hms]
      simp [runMiddlewares, hmw]
    simp [handleRequest, dispatchCore, runLogger, hlg, hrun, Bind.bind, Except.bind,
          finishResponse]

/-- Event used by the C6 witness. -/
def c6Event : APIGatewayEvent := mkEvent "GET" "/m"

/-- C6 witness: a failing logger aborts a concrete dispatch before the
registered middleware and routes; a failing middleware after a succeeding
logger and middleware prefix aborts before the suffix and the routes. -/
theorem c6_pipeline_order_witness :
    mwFail c6Event = .error testError ∧
    handleRequest { staticRoutes := [c4Static], dynamicRoutes := [c4Dyn]
                  , middlewares := [mwId], logger := some mwFail } c6Event
      = (errorHandler testError, c6Event) ∧
    mwId c6Event = .ok c6Event ∧
    runMiddlewares [mwId] c6Event = .ok c6Event ∧
    handleRequest { staticRoutes := [c4Static], dynamicRoutes := [c4Dyn]
                  , middlewares := [mwId] ++ mwFail :: [mwId], logger := some mwId } c6Event
      = (errorHandler testError, c6Event) := by
  refine ⟨rfl, ?_, rfl, rfl, ?_⟩
  · exact (c6_pipeline_order mwFail mwFail [] [] c6Event c6Event c6Event
      testError testError).1 rfl [mwId] [c4Static] [c4Dyn]
  · exact (c6_pipeline_order mwId mwFail [mwId] [mwId] c6Event c6Event c6Event
      testError testError).2 rfl rfl rfl [c4Static] [c4Dyn]

/-- With a non-mutating logger, the logger stage either returns the event
unchanged or fails carrying it unchanged. -/
theorem runLogger_nonmut (olg : Option Middleware) (ev : APIGatewayEvent)
    (h : ∀ lg, olg = some lg → ∀ a b, lg a = .ok b → b = a) :
    runLogger olg ev = .ok ev ∨ ∃ e, runLogger olg ev = .error (e, ev) := by
  cases olg with
  | none => exact .inl rfl
  | some l =>
    cases hl : l ev with
    | error e => exact .inr ⟨e, by simp [runLogger, hl]⟩
    | ok ev' =>
      have heq := h l rfl ev ev' hl
      subst heq
      exact .inl (by simp [runLogger, hl])

/-- With non-mutating middleware, the middleware stage either returns the
event unchanged or fails carrying it unchanged. -/
theorem runMiddlewares_nonmut (ms : List Middleware) (ev : APIGatewayEvent)
    (h : ∀ mw ∈ ms, ∀ a b, mw a = .ok b → b = a) :
    runMiddlewares ms ev = .ok ev ∨ ∃ e, runMiddlewares ms ev = .error (e, ev) := by
  induction ms with
  | nil => exact .inl rfl
  | cons mw mws ih =>
    cases hm : mw ev with
    | error e => exact .inr ⟨e, by simp [runMiddlewares, hm]⟩
    | ok ev' =>
      have heq := h mw (List.mem_cons_self mw mws) ev ev' hm
      subst heq
      rcases ih (fun mw' hmw' => h mw' (List.mem_cons_of_mem _ hmw')) with h1 | ⟨e, h1⟩
      · exact .inl (by simp [runMiddlewares, hm, h1])
      · exact .inr ⟨e, by simp [runMiddlewares, hm, h1]⟩

/-- With non-mutating guards, guard processing either returns the event
unchanged or fails. -/
theorem processGuards_nonmut (gs : List Guard) (ev : APIGatewayEvent)
    (h : ∀ g ∈ gs, ∀ a q, g a = .ok q → q.2 = a) :
    processGuards gs ev = .ok ev ∨ ∃ e, processGuards gs ev = .error e := by
  induction gs with
  | nil => exact .inl rfl
  | cons g gsr ih =>
    cases hg : g ev with
    | error e => exact .inr ⟨e, by simp [processGuards, hg]⟩
    | ok q =>
      obtain ⟨b, ev'⟩ := q
      have heq : ev' = ev := h g (List.mem_cons_self g gsr) ev (b, ev') hg
      subst heq
      cases b with
      | true =>
        rcases ih (fun g' hg' => h g' (List.mem_cons_of_mem _ hg')) with h1 | ⟨e, h1⟩
        · exact .inl (by simp [processGuards, hg, h1])
        · exact .inr ⟨e, by simp [processGuards, hg, h1]⟩
      | false => exact .inr ⟨forbiddenError, by simp [processGuards, hg]⟩

/-- A hit of the dynamic lookup is a registered dynamic route. -/
theorem findDynamicRoute_mem (routes : List DynamicRoute) (p : String)
    (r : DynamicRoute) (ml : List String)
    (h : findDynamicRoute routes p = some (r, ml)) : r ∈ routes := by
  induction routes with
  | nil => cases h
  | cons r0 rest ih =>
    unfold findDynamicRoute at h
    cases hm : regexMatch r0.path p with
    | some ml0 =>
      rw [hm] at h
      obtain ⟨rfl, rfl⟩ := Prod.mk.injEq .. ▸ Option.some.inj h
      exact List.mem_cons_self r0 rest
    | none =>
      rw [hm] at h
      exact List.mem_cons_of_mem _ (ih h)

/-- The route-and-invoke stage leaves the event it was given unchanged
when the route's guards are non-mutating. -/
theorem runRoute_frame (gs : List Guard) (h : HandlerF) (ev : APIGatewayEvent)
    (hg : ∀ g ∈ gs, ∀ a q, g a = .ok q → q.2 = a) :
    (finishResponse (runRoute gs h ev)).2 = ev := by
  rcases processGuards_nonmut gs ev hg with h1 | ⟨e, h1⟩
  · cases hi : invokeHandler h ev with
    | error e => simp [runRoute, h1, hi, finishResponse]
    | ok resp => simp [runRoute, h1, hi, finishResponse]
  · simp [runRoute, h1, finishResponse]

/-- C10: confirmed.  When the supplied logger, middleware, and guards do
not mutate the event (handlers receive only bound values and cannot),
dispatch leaves the request's method, path, body, headers, and query
parameters unchanged, and the final event differs from the input at most
in the path-parameter slot — exactly when the lookup falls through to a
matching dynamic route. -/
theorem c10_dispatch_frame
    (router : Router) (ev : APIGatewayEvent)
    (hlg : ∀ lg, router.logger = some lg → ∀ a b, lg a = .ok b → b = a)
    (hms : ∀ mw ∈ router.middlewares, ∀ a b, mw a = .ok b → b = a)
    (hgs : ∀ r ∈ router.staticRoutes, ∀ g ∈ r.guards, ∀ a q, g a = .ok q → q.2 = a)
    (hgd : ∀ r ∈ router.dynamicRoutes, ∀ g ∈ r.guards, ∀ a q, g a = .ok q → q.2 = a) :
    ((handleRequest router ev).2.httpMethod = ev.httpMethod ∧
     (handleRequest router ev).2.path = ev.path ∧
     (handleRequest router ev).2.body = ev.body ∧
     (handleRequest router ev).2.headers = ev.headers ∧
     (handleRequest router ev).2.queryStringParameters = ev.queryStringParameters) ∧
    match findStaticRoute router.staticRoutes ev.httpMethod ev.path with
    | some _ => (handleRequest router ev).2 = ev
    | none =>
      match findDynamicRoute router.dynamicRoutes ev.path with
      | some rm =>
        (handleRequest router ev).2 = ev ∨
        (handleRequest router ev).2
          = { ev with pathParameters := some (extractParams rm.1.path rm.2) }
      | none => (handleRequest router ev).2 = ev := by
  have key :
      match findStaticRoute router.staticRoutes ev.httpMethod ev.path with
      | some _ => (handleRequest router ev).2 = ev
      | none =>
        match findDynamicRoute router.dynamicRoutes ev.path with
        | some rm =>
          (handleRequest router ev).2 = ev ∨
          (handleRequest router ev).2
            = { ev with pathParameters := some (extractParams rm.1.path rm.2) }
        | none => (handleRequest router ev).2 = ev := by
    rcases runLogger_nonmut router.logger ev hlg with hL | ⟨eL, hL⟩
    · rcases runMiddlewares_nonmut router.middlewares ev hms with hM | ⟨eM, hM⟩
      · cases hfs : findStaticRoute router.staticRoutes ev.httpMethod ev.path with
        | some r =>
          have hrmem : r ∈ router.staticRoutes := by
            unfold findStaticRoute at hfs
            exact List.mem_of_find?_eq_some hfs
          have hres : (handleRequest router ev).2 = ev := by
            simp only [handleRequest, dispatchCore, hL, hM, Bind.bind, Except.bind,
                       matchStage, hfs]
            exact runRoute_frame r.guards r.handler ev (hgs r hrmem)
          simp only [hfs]
          exact hres
        | none =>
          cases hfd : findDynamicRoute router.dynamicRoutes ev.path with
          | some rm =>
            have hrmem : rm.1 ∈ router.dynamicRoutes := by
              obtain ⟨r, ml⟩ := rm
              exact findDynamicRoute_mem router.dynamicRoutes ev.path r ml hfd
            have hres : (handleRequest router ev).2
                = { ev with pathParameters := some (extractParams rm.1.path rm.2) } := by
              obtain ⟨r, ml⟩ := rm
              simp only [handleRequest, dispatchCore, hL, hM, Bind.bind, Except.bind,
                         matchStage, hfs, hfd]
              exact runRoute_frame r.guards r.handler _ (hgd r hrmem)
            simp only [hfs, hfd]
            exact .inr hres
          | none =>
            have hres : (handleRequest router ev).2 = ev := by
              simp [handleRequest, dispatchCore, hL, hM, Bind.bind, Except.bind,
                    matchStage, hfs, hfd, finishResponse]
            simp only [hfs, hfd]
            exact hres
      · have hres : (handleRequest router ev).2 = ev := by
          simp [handleRequest, dispatchCore, hL, hM, Bind.bind, Except.bind,
                finishResponse]
        split
        · exact hres
        · split
          · exact .inl hres
          · exact hres
    · have hres : (handleRequest router ev).2 = ev := by
        simp [handleRequest, dispatchCore, hL, Bind.bind, Except.bind, finishResponse]
      split
      · exact hres
      · split
        · exact .inl hres
        · exact hres
  refine ⟨?_, key⟩
  revert key
  cases hfs : findStaticRoute router.staticRoutes ev.httpMethod ev.path with
  | some r =>
    simp only [hfs]
    intro key
    rw [key]
    exact ⟨rfl, rfl, rfl, rfl, rfl⟩
  | none =>
    cases hfd : findDynamicRoute router.dynamicRoutes ev.path with
    | some rm =>
      simp only [hfs, hfd]
      rintro (key | key) <;> rw [key] <;> exact ⟨rfl, rfl, rfl, rfl, rfl⟩
    | none =>
      simp only [hfs, hfd]
      intro key
      rw [key]
      exact ⟨rfl, rfl, rfl, rfl, rfl⟩

/-- Static GET route on `/c10` guarded by a passing guard. -/
def c10Static : StaticRoute :=
  { method := "GET", path := "/c10", handler := staticOkHandler, guards := [gTrue] }

/-- Router with non-mutating logger, middleware and guards. -/
def c10Router : Router :=
  { staticRoutes := [c10Static], dynamicRoutes := [c4Dyn]
  , middlewares := [mwId], logger := some mwId }

/-- Request of the C10 witness. -/
def c10Event : APIGatewayEvent := mkEvent "GET" "/c10"

/-- C10 witness: at a concrete router whose stages do not mutate the
event, the dispatched event is returned unchanged. -/
theorem c10_dispatch_frame_witness :
    mwId c10Event = .ok c10Event ∧
    gTrue c10Event = .ok (true, c10Event) ∧
    ((handleRequest c10Router c10Event).2.httpMethod = c10Event.httpMethod ∧
     (handleRequest c10Router c10Event).2.path = c10Event.path ∧
     (handleRequest c10Router c10Event).2.body = c10Event.body ∧
     (handleRequest c10Router c10Event).2.headers = c10Event.headers ∧
     (handleRequest c10Router c10Event).2.queryStringParameters
       = c10Event.queryStringParameters) ∧
    match findStaticRoute c10Router.staticRoutes c10Event.httpMethod c10Event.path with
    | some _ => (handleRequest c10Router c10Event).2 = c10Event
    | none =>
      match findDynamicRoute c10Router.dynamicRoutes c10Event.path with
      | some rm =>
        (handleRequest c10Router c10Event).2 = c10Event ∨
        (handleRequest c10Router c10Event).2
          = { c10Event with pathParameters := some (extractParams rm.1.path rm.2) }
      | none => (handleRequest c10Router c10Event).2 = c10Event := by
  have hlg : ∀ lg, c10Router.logger = some lg → ∀ a b, lg a = .ok b → b = a := by
    intro lg hl a b hab
    have heq : mwId = lg := by simpa [c10Router] using hl
    subst heq
    simp [mwId] at hab
    exact hab.symm
  have hms : ∀ mw ∈ c10Router.middlewares, ∀ a b, mw a = .ok b → b = a := by
    intro mw hmw a b hab
    simp [c10Router] at hmw
    subst hmw
    simp [mwId] at hab
    exact hab.symm
  have hgs : ∀ r ∈ c10Router.staticRoutes, ∀ g ∈ r.guards, ∀ a q, g a = .ok q → q.2 = a := by
    intro r hr g hg a q hq
    simp [c10Router] at hr
    subst hr
    simp [c10Static] at hg
    subst hg
    simp [gTrue] at hq
    subst hq
    rfl
  have hgd : ∀ r ∈ c10Router.dynamicRoutes, ∀ g ∈ r.guards, ∀ a q, g a = .ok q → q.2 = a := by
    intro r hr g hg
    simp [c10Router] at hr
    subst hr
    simp [c4Dyn] at hg
  exact ⟨rfl, rfl, (c10_dispatch_frame c10Router c10Event hlg hms hgs hgd).1,
         (c10_dispatch_frame c10Router c10Event hlg hms hgs hgd).2⟩
